import Mathlib

/-
  Verification development for the sandboxed code-execution engine of this
  repository (src/src/api/v1/answers/helpers.py and tools.py).

  The Python source is shallowly embedded: the candidate code submitted to the
  tool is represented by an abstract syntax tree mirroring the ast nodes the
  engine manipulates, the CodeSecurityValidator is an Except-valued traversal
  of that tree, and the CPython execution of the compiled tree under
  exec(code, safe_globals, local_namespace) is a fuel-indexed interpreter with
  explicit state: a shared store of module objects (module objects are the one
  piece of state that SAFE_NAMESPACE.copy() does not duplicate, because the
  copy is shallow), the per-invocation safe_globals dictionary, and the
  per-invocation copy of the builtins dictionary.

  Model boundaries, stated once here:
  - parsing (ast.parse) is host functionality; tool inputs are already parsed
    trees, with a distinguished syntaxError input standing for a source that
    fails to parse;
  - bodies of host library functions (math.sqrt, len, ...) are modelled only
    on the inputs the claims exercise; outside that fragment they return the
    distinguished error notModeled;
  - CPython decides locals of a function statically; the interpreter resolves
    names dynamically (frame locals, then globals, then builtins).  The two
    agree on every program appearing in a theorem below; universally
    quantified theorems carry hypotheses that keep them in agreement.
-/

namespace Sandbox

/-! ### Abstract syntax

Mirrors the ast node kinds that the validator and the executed candidates
touch: Name, Constant, Attribute, Call, Lambda, BinOp for expressions;
FunctionDef, AsyncFunctionDef, Return, Expr, Assign (to a name or to an
attribute), Global, While, Import, ImportFrom, Pass for statements. -/

inductive PyBinOp
  | add
  | sub
  | mul

inductive PyExpr
  | name (id : String)
  | intC (n : Int)
  | floatC (n : Int)
  | boolC (b : Bool)
  | strC (s : String)
  | attr (value : PyExpr) (attrName : String)
  | call (func : PyExpr) (args : List PyExpr)
  | lam (params : List String) (body : PyExpr)
  | binop (op : PyBinOp) (lhs rhs : PyExpr)

inductive PyStmt
  | functionDef (fname : String) (params : List String) (body : List PyStmt)
  | asyncFunctionDef (fname : String) (params : List String) (body : List PyStmt)
  | ret (value : Option PyExpr)
  | exprStmt (e : PyExpr)
  | assignName (target : String) (value : PyExpr)
  | assignAttr (obj : PyExpr) (attrName : String) (value : PyExpr)
  | globalStmt (gname : String)
  | whileStmt (test : PyExpr) (body : List PyStmt)
  | importStmt (moduleName : String)
  | importFrom (moduleName : String) (names : List String)
  | passStmt

/-! ### Policy catalog (helpers.py) -/

/-- ALLOWED_PYTHON_MODULES from helpers.py. -/
def ALLOWED_PYTHON_MODULES : List String :=
  ["math", "cmath", "fractions", "decimal", "itertools", "functools",
   "operator", "statistics", "random"]

/-- CodeSecurityValidator.DANGEROUS_ATTRIBUTES from helpers.py. -/
def DANGEROUS_ATTRIBUTES : List String :=
  ["__class__", "__bases__", "__subclasses__", "__globals__", "__code__",
   "__builtins__", "__dict__", "__mro__", "__import__", "func_globals",
   "func_code", "gi_frame", "gi_code", "cr_frame", "cr_code"]

/-- CodeSecurityValidator.MAX_FUNCTION_DEPTH from helpers.py. -/
def MAX_FUNCTION_DEPTH : Nat := 2

/-! ### The static security validator (CodeSecurityValidator)

The Python visitor mutates three fields: function_depth (incremented and
decremented symmetrically around each FunctionDef / Lambda), current_function
(saved and restored around each FunctionDef) and function_names (written but
never read).  An exception aborts the whole traversal, so the mutable state is
equivalent to two values threaded down the recursion: the depth and the
innermost enclosing named function.  generic_visit visits children in field
order; the embedding visits the same children in the same order. -/

inductive Violation
  | dangerousAttribute (attrName : String)
  | whileLoopForbidden
  | nestingDepthExceeded
  | recursionDetected (fname : String)
deriving DecidableEq

/-- The body of visit_Call before generic_visit: a call whose callee is a
bare Name equal to the current function raises RecursionDetected. -/
def callCheck (cur : Option String) : PyExpr → Except Violation Unit
  | .name id =>
    if cur = some id then .error (.recursionDetected id) else .ok ()
  | _ => .ok ()

mutual

def visitStmt (depth : Nat) (cur : Option String) : PyStmt → Except Violation Unit
  | .functionDef fname _ body =>
    if depth + 1 > MAX_FUNCTION_DEPTH then .error .nestingDepthExceeded
    else visitStmts (depth + 1) (some fname) body
  | .asyncFunctionDef fname _ body =>
    -- visit_AsyncFunctionDef delegates to visit_FunctionDef
    if depth + 1 > MAX_FUNCTION_DEPTH then .error .nestingDepthExceeded
    else visitStmts (depth + 1) (some fname) body
  | .ret none => .ok ()
  | .ret (some e) => visitExpr depth cur e
  | .exprStmt e => visitExpr depth cur e
  | .assignName _ e => visitExpr depth cur e
  | .assignAttr obj attrName e =>
    -- the Assign target is an Attribute node, so visit_Attribute applies to it
    if DANGEROUS_ATTRIBUTES.contains attrName then .error (.dangerousAttribute attrName)
    else
      match visitExpr depth cur obj with
      | .error v => .error v
      | .ok _ => visitExpr depth cur e
  | .globalStmt _ => .ok ()
  | .whileStmt _ _ => .error .whileLoopForbidden
  | .importStmt _ => .ok ()
  | .importFrom _ _ => .ok ()
  | .passStmt => .ok ()

def visitStmts (depth : Nat) (cur : Option String) : List PyStmt → Except Violation Unit
  | [] => .ok ()
  | s :: rest =>
    match visitStmt depth cur s with
    | .error v => .error v
    | .ok _ => visitStmts depth cur rest

def visitExpr (depth : Nat) (cur : Option String) : PyExpr → Except Violation Unit
  | .name _ => .ok ()
  | .intC _ => .ok ()
  | .floatC _ => .ok ()
  | .boolC _ => .ok ()
  | .strC _ => .ok ()
  | .attr value attrName =>
    if DANGEROUS_ATTRIBUTES.contains attrName then .error (.dangerousAttribute attrName)
    else visitExpr depth cur value
  | .call func args =>
    match callCheck cur func with
    | .error v => .error v
    | .ok _ =>
      match visitExpr depth cur func with
      | .error v => .error v
      | .ok _ => visitExprs depth cur args
  | .lam _ body =>
    if depth + 1 > MAX_FUNCTION_DEPTH then .error .nestingDepthExceeded
    else visitExpr (depth + 1) cur body
  | .binop _ lhs rhs =>
    match visitExpr depth cur lhs with
    | .error v => .error v
    | .ok _ => visitExpr depth cur rhs

def visitExprs (depth : Nat) (cur : Option String) : List PyExpr → Except Violation Unit
  | [] => .ok ()
  | e :: rest =>
    match visitExpr depth cur e with
    | .error v => .error v
    | .ok _ => visitExprs depth cur rest

end

/-- validate_code_security from helpers.py, on an already parsed tree:
CodeSecurityValidator().validate with initial state depth 0, no enclosing
function. -/
def validate_code_security (tree : List PyStmt) : Except Violation Unit :=
  visitStmts 0 none tree

/-! ### The import gate (tools.py, lines 48-59)

ast.walk enumerates every node of the tree; the loop returns None as soon as
an Import alias or an ImportFrom module outside ALLOWED_PYTHON_MODULES is
seen.  For the observable outcome only existence matters, so the gate is a
Boolean scan over the whole tree (imports are statements, so only statement
positions need scanning). -/

mutual

def stmtHasDisallowedImport : PyStmt → Bool
  | .functionDef _ _ body => stmtsHaveDisallowedImport body
  | .asyncFunctionDef _ _ body => stmtsHaveDisallowedImport body
  | .whileStmt _ body => stmtsHaveDisallowedImport body
  | .importStmt m => !(ALLOWED_PYTHON_MODULES.contains m)
  | .importFrom m _ => !(ALLOWED_PYTHON_MODULES.contains m)
  | _ => false

def stmtsHaveDisallowedImport : List PyStmt → Bool
  | [] => false
  | s :: rest => stmtHasDisallowedImport s || stmtsHaveDisallowedImport rest

end

/-! ### Runtime values and state

A Val is a Python object reachable in the sandbox.  Module objects are
represented by reference (their name indexes the shared module store), which
is exactly what makes SAFE_NAMESPACE.copy() shallow: two invocations whose
globals both contain Val.module "math" alias one underlying attribute table.
A closure [def or lambda] carries its parameter list and body; its global
scope is the (unique) safe_globals of the invocation executing it, held in
PyState. -/

inductive Val
  | pyNone
  | bool (b : Bool)
  | int (n : Int)
  | float (n : Int)
  | str (s : String)
  | module (moduleName : String)
  | builtinsObj
  | builtin (bname : String)
  | closure (params : List String) (body : List PyStmt)

/-- Python dictionaries with string keys, as insertion-ordered association
lists. -/
def Dict (β : Type) : Type := List (String × β)

/-- Dictionary update: an existing key keeps its position and gets the new
value, a new key is appended (CPython insertion-order semantics). -/
def dictSet {β : Type} : Dict β → String → β → Dict β
  | [], k, v => [(k, v)]
  | (k', v') :: rest, k, v =>
    if k' = k then (k, v) :: rest else (k', v') :: dictSet rest k v

/-- Dictionary lookup. -/
def dictGet {β : Type} : Dict β → String → Option β
  | [], _ => none
  | (k', v') :: rest, k => if k' = k then some v' else dictGet rest k

/-- The mutable state visible to candidate code: the process-wide module
objects (shared by every invocation) and the current invocation's safe_globals
and copied builtins dictionary. -/
structure PyState where
  modules : Dict (Dict Val)
  globals : Dict Val
  builtins : Dict Val

/-- One execution frame: its local bindings and the names it has declared
global. The top-level frame of exec(code, safe_globals, local_namespace) has
local_namespace as its locals. -/
structure Frame where
  locals : Dict Val
  globalDecls : List String

/-! ### Restricted namespace (SAFE_NAMESPACE, helpers.py lines 165-199) -/

/-- AVAILABLE_PYTHON_MODULES from helpers.py: the pre-bound module objects. -/
def AVAILABLE_PYTHON_MODULES : Dict Val :=
  [("math", .module "math"), ("cmath", .module "cmath"),
   ("fractions", .module "fractions"), ("decimal", .module "decimal"),
   ("itertools", .module "itertools"), ("functools", .module "functools"),
   ("operator", .module "operator"), ("statistics", .module "statistics"),
   ("random", .module "random")]

/-- The "__builtins__" dictionary of SAFE_NAMESPACE, all 29 keys in source
order.  Each value is a host function; only the behaviour the claims exercise
is modelled (callBuiltin). -/
def SAFE_NAMESPACE_builtins : Dict Val :=
  [("len", .builtin "len"), ("range", .builtin "range"),
   ("enumerate", .builtin "enumerate"), ("zip", .builtin "zip"),
   ("map", .builtin "map"), ("filter", .builtin "filter"),
   ("sum", .builtin "sum"), ("abs", .builtin "abs"),
   ("min", .builtin "min"), ("max", .builtin "max"),
   ("pow", .builtin "pow"), ("round", .builtin "round"),
   ("sorted", .builtin "sorted"), ("reversed", .builtin "reversed"),
   ("all", .builtin "all"), ("any", .builtin "any"),
   ("int", .builtin "int"), ("float", .builtin "float"),
   ("complex", .builtin "complex"), ("str", .builtin "str"),
   ("list", .builtin "list"), ("tuple", .builtin "tuple"),
   ("dict", .builtin "dict"), ("set", .builtin "set"),
   ("frozenset", .builtin "frozenset"), ("bool", .builtin "bool"),
   ("divmod", .builtin "divmod"), ("isinstance", .builtin "isinstance"),
   ("__import__", .builtin "__import__")]

/-- The keys of SAFE_NAMESPACE itself: the "__builtins__" entry (the
dictionary above, an opaque object from the candidate's point of view)
followed by the pre-bound modules added by SAFE_NAMESPACE.update(...). -/
def SAFE_NAMESPACE_globals : Dict Val :=
  ("__builtins__", Val.builtinsObj) :: AVAILABLE_PYTHON_MODULES

/-- The attribute tables of the host module objects at process start.  Only
math.sqrt is given behaviour (the single module attribute the claims call);
every table accepts new attributes via setattr, which is what a shallow copy
of SAFE_NAMESPACE leaves shared between invocations. -/
def initialModules : Dict (Dict Val) :=
  [("math", [("sqrt", .builtin "math.sqrt")]), ("cmath", []),
   ("fractions", []), ("decimal", []), ("itertools", []), ("functools", []),
   ("operator", []), ("statistics", []), ("random", [])]

/-! ### Errors and host functions -/

inductive PyErr
  | nameError (n : String)
  | attributeError (n : String)
  | typeError
  | importError (m : String)
  | zeroDivision
  | timeout
  | targetNotFound (n : String)
  | compileError
  | notModeled
deriving DecidableEq

/-- safe_import from helpers.py: refuse anything outside
ALLOWED_PYTHON_MODULES, otherwise hand back the pre-bound module object from
AVAILABLE_PYTHON_MODULES (the host-loader fallback of the source is
unreachable because every allowed name is pre-bound; it is notModeled here).
-/
def safe_import (mname : String) : Except PyErr Val :=
  if !(ALLOWED_PYTHON_MODULES.contains mname) then .error (.importError mname)
  else
    match dictGet AVAILABLE_PYTHON_MODULES mname with
    | some m => .ok m
    | none => .error .notModeled

def applyArith (op : PyBinOp) (x y : Int) : Int :=
  match op with
  | .add => x + y
  | .sub => x - y
  | .mul => x * y

/-- Numeric view used by int arithmetic: bool is a subtype of int in Python.
-/
def asIntNum : Val → Option Int
  | .int n => some n
  | .bool b => some (if b then 1 else 0)
  | _ => none

/-- Numeric view used by float arithmetic. -/
def asFloatNum : Val → Option Int
  | .int n => some n
  | .float n => some n
  | .bool b => some (if b then 1 else 0)
  | _ => none

/-- Binary operators on the modelled values: int arithmetic, float contagion,
string concatenation; anything else is a TypeError exactly as in CPython for
these operand types. -/
def evalBinOp (op : PyBinOp) (a b : Val) : Except PyErr Val :=
  match a, b with
  | .str s1, .str s2 =>
    match op with
    | .add => .ok (.str (s1 ++ s2))
    | _ => .error .typeError
  | _, _ =>
    match asIntNum a, asIntNum b with
    | some x, some y => .ok (.int (applyArith op x y))
    | _, _ =>
      match asFloatNum a, asFloatNum b with
      | some x, some y => .ok (.float (applyArith op x y))
      | _, _ => .error .typeError

/-- The exact square root of a perfect square (math.sqrt is evaluated only
there, where the IEEE result is exact). -/
def perfectSqrt (n : Nat) : Option Nat :=
  (List.range (n + 1)).find? (fun k => k * k == n)

/-- Behaviour of the host functions reachable from the sandbox, on the
fragment the claims exercise.  len raises TypeError on a wrong argument count
and on every modelled non-string argument (none of them is sized);
math.sqrt is evaluated on perfect squares, where the IEEE result is exact;
calling __import__ directly is the safe_import hook.  Everything else is
outside the modelled fragment. -/
def callBuiltin (bname : String) (args : List Val) : Except PyErr Val :=
  match bname, args with
  | "len", [.str s] => .ok (.int s.length)
  | "len", [_] => .error .typeError
  | "len", _ => .error .typeError
  | "math.sqrt", [.int n] =>
    if n < 0 then .error .notModeled
    else
      match perfectSqrt n.toNat with
      | some k => .ok (.float k)
      | none => .error .notModeled
  | "math.sqrt", [.float n] =>
    if n < 0 then .error .notModeled
    else
      match perfectSqrt n.toNat with
      | some k => .ok (.float k)
      | none => .error .notModeled
  | "math.sqrt", _ => .error .typeError
  | "__import__", [.str m] => safe_import m
  | _, _ => .error .notModeled

/-! ### Name resolution and attribute access -/

/-- Name load.  A name declared global in the frame is looked up in
safe_globals then builtins (LOAD_GLOBAL); otherwise frame locals, then
safe_globals, then builtins.  At the top-level frame this is LOAD_NAME; inside
a function CPython's static scoping agrees with this dynamic rule on every
program stated below. -/
def lookupName (st : PyState) (fr : Frame) (n : String) : Except PyErr Val :=
  if fr.globalDecls.contains n then
    match dictGet st.globals n with
    | some v => .ok v
    | none =>
      match dictGet st.builtins n with
      | some v => .ok v
      | none => .error (.nameError n)
  else
    match dictGet fr.locals n with
    | some v => .ok v
    | none =>
      match dictGet st.globals n with
      | some v => .ok v
      | none =>
        match dictGet st.builtins n with
        | some v => .ok v
        | none => .error (.nameError n)

/-- Name store: STORE_GLOBAL into safe_globals for declared-global names,
STORE_NAME / STORE_FAST into the frame locals otherwise. -/
def storeName (st : PyState) (fr : Frame) (n : String) (v : Val) :
    PyState × Frame :=
  if fr.globalDecls.contains n then
    ({ st with globals := dictSet st.globals n v }, fr)
  else
    (st, { fr with locals := dictSet fr.locals n v })

/-- getattr on a module object: read the shared attribute table. -/
def getModuleAttr (st : PyState) (m attrName : String) : Except PyErr Val :=
  match dictGet st.modules m with
  | some attrs =>
    match dictGet attrs attrName with
    | some v => .ok v
    | none => .error (.attributeError attrName)
  | none => .error (.attributeError attrName)

/-- setattr on a module object: mutate the shared attribute table in place.
This is the mutation that outlives an invocation. -/
def setModuleAttr (st : PyState) (m attrName : String) (v : Val) : PyState :=
  { st with
    modules := dictSet st.modules m
      (dictSet ((dictGet st.modules m).getD []) attrName v) }

/-- Attribute read on a value: modules expose their attribute table;
attributes of other modelled values are outside the fragment. -/
def getAttrVal (st : PyState) (v : Val) (attrName : String) : Except PyErr Val :=
  match v with
  | .module m => getModuleAttr st m attrName
  | _ => .error .notModeled

/-- Python truthiness of the modelled values. -/
def truthy : Val → Bool
  | .pyNone => false
  | .bool b => b
  | .int n => n != 0
  | .float n => n != 0
  | .str s => s != ""
  | _ => true

/-- from M import a, b, ...: getattr each name from the module and bind it in
the current frame; a missing attribute raises ImportError. -/
def bindImportedNames (st : PyState) (fr : Frame) (m : String) :
    List String → PyState × Frame × Except PyErr Unit
  | [] => (st, fr, .ok ())
  | n :: rest =>
    match getModuleAttr st m n with
    | .error _ => (st, fr, .error (.importError n))
    | .ok v =>
      let p := storeName st fr n v
      bindImportedNames p.1 p.2 m rest

/-! ### The interpreter

Executes one invocation's compiled tree and (later) the call of the target
function, mirroring exec(code, safe_globals, local_namespace) followed by
func(*args).  Every recursive step consumes one unit of fuel, so evaluation is
structurally recursive and kernel-computable; exhausting the fuel is the model
of deadline expiry (asyncio.wait_for raising TimeoutError after the
configured safe_execute_code_timeout_sec).  Expression evaluation follows
CPython order: a call evaluates its callee, then its arguments left to right;
an assignment evaluates its right-hand side before its target. -/

/-- Result of running a suite of statements. -/
inductive Flow
  | normal
  | returned (v : Val)

mutual

def evalExpr : Nat → PyState → Frame → PyExpr → PyState × Except PyErr Val
  | 0, st, _, _ => (st, .error .timeout)
  | fuel + 1, st, fr, e =>
    match e with
    | .name n => (st, lookupName st fr n)
    | .intC n => (st, .ok (.int n))
    | .floatC n => (st, .ok (.float n))
    | .boolC b => (st, .ok (.bool b))
    | .strC s => (st, .ok (.str s))
    | .attr value attrName =>
      match evalExpr fuel st fr value with
      | (st', .error err) => (st', .error err)
      | (st', .ok v) => (st', getAttrVal st' v attrName)
    | .lam params body => (st, .ok (.closure params [.ret (some body)]))
    | .binop op lhs rhs =>
      match evalExpr fuel st fr lhs with
      | (st', .error err) => (st', .error err)
      | (st', .ok lv) =>
        match evalExpr fuel st' fr rhs with
        | (st'', .error err) => (st'', .error err)
        | (st'', .ok rv) => (st'', evalBinOp op lv rv)
    | .call func args =>
      match evalExpr fuel st fr func with
      | (st', .error err) => (st', .error err)
      | (st', .ok fv) =>
        match evalExprs fuel st' fr args with
        | (st'', .error err) => (st'', .error err)
        | (st'', .ok argvs) => callValue fuel st'' fv argvs

def evalExprs : Nat → PyState → Frame → List PyExpr → PyState × Except PyErr (List Val)
  | 0, st, _, _ => (st, .error .timeout)
  | fuel + 1, st, fr, es =>
    match es with
    | [] => (st, .ok [])
    | e :: rest =>
      match evalExpr fuel st fr e with
      | (st', .error err) => (st', .error err)
      | (st', .ok v) =>
        match evalExprs fuel st' fr rest with
        | (st'', .error err) => (st'', .error err)
        | (st'', .ok vs) => (st'', .ok (v :: vs))

def callValue : Nat → PyState → Val → List Val → PyState × Except PyErr Val
  | 0, st, _, _ => (st, .error .timeout)
  | fuel + 1, st, fv, args =>
    match fv with
    | .closure params body =>
      if params.length = args.length then
        match execStmts fuel st { locals := params.zip args, globalDecls := [] } body with
        | (st', _, .error err) => (st', .error err)
        | (st', _, .ok (.returned v)) => (st', .ok v)
        | (st', _, .ok .normal) => (st', .ok .pyNone)
      else (st, .error .typeError)
    | .builtin bname => (st, callBuiltin bname args)
    | _ => (st, .error .typeError)

def execStmt : Nat → PyState → Frame → PyStmt → PyState × Frame × Except PyErr Flow
  | 0, st, fr, _ => (st, fr, .error .timeout)
  | fuel + 1, st, fr, s =>
    match s with
    | .functionDef fname params body =>
      let p := storeName st fr fname (.closure params body)
      (p.1, p.2, .ok .normal)
    | .asyncFunctionDef fname params body =>
      -- model boundary: an async def binds a callable executed like a plain
      -- function when called (no claim below calls one)
      let p := storeName st fr fname (.closure params body)
      (p.1, p.2, .ok .normal)
    | .ret none => (st, fr, .ok (.returned .pyNone))
    | .ret (some e) =>
      match evalExpr fuel st fr e with
      | (st', .error err) => (st', fr, .error err)
      | (st', .ok v) => (st', fr, .ok (.returned v))
    | .exprStmt e =>
      match evalExpr fuel st fr e with
      | (st', .error err) => (st', fr, .error err)
      | (st', .ok _) => (st', fr, .ok .normal)
    | .assignName target e =>
      match evalExpr fuel st fr e with
      | (st', .error err) => (st', fr, .error err)
      | (st', .ok v) =>
        let p := storeName st' fr target v
        (p.1, p.2, .ok .normal)
    | .assignAttr obj attrName e =>
      match evalExpr fuel st fr e with
      | (st', .error err) => (st', fr, .error err)
      | (st', .ok v) =>
        match evalExpr fuel st' fr obj with
        | (st'', .error err) => (st'', fr, .error err)
        | (st'', .ok (.module m)) => (setModuleAttr st'' m attrName v, fr, .ok .normal)
        | (st'', .ok _) => (st'', fr, .error .notModeled)
    | .globalStmt gname =>
      -- CPython treats the declaration statically over the whole body and
      -- refuses a binding before the declaration at compile time; sequential
      -- recording agrees with it on accepted-at-compile programs
      (st, { fr with globalDecls := gname :: fr.globalDecls }, .ok .normal)
    | .whileStmt test body =>
      match evalExpr fuel st fr test with
      | (st', .error err) => (st', fr, .error err)
      | (st', .ok v) =>
        if truthy v then
          match execStmts fuel st' fr body with
          | (st'', fr', .error err) => (st'', fr', .error err)
          | (st'', fr', .ok (.returned rv)) => (st'', fr', .ok (.returned rv))
          | (st'', fr', .ok .normal) => execStmt fuel st'' fr' (.whileStmt test body)
        else (st', fr, .ok .normal)
    | .importStmt m =>
      -- the compiled import calls the namespace import hook, which tools.py
      -- binds to safe_import, then binds the module name in the frame
      match safe_import m with
      | .error err => (st, fr, .error err)
      | .ok v =>
        let p := storeName st fr m v
        (p.1, p.2, .ok .normal)
    | .importFrom m names =>
      match safe_import m with
      | .error err => (st, fr, .error err)
      | .ok _ =>
        match bindImportedNames st fr m names with
        | (st', fr', .error err) => (st', fr', .error err)
        | (st', fr', .ok _) => (st', fr', .ok .normal)
    | .passStmt => (st, fr, .ok .normal)

def execStmts : Nat → PyState → Frame → List PyStmt → PyState × Frame × Except PyErr Flow
  | 0, st, fr, _ => (st, fr, .error .timeout)
  | fuel + 1, st, fr, ss =>
    match ss with
    | [] => (st, fr, .ok .normal)
    | s :: rest =>
      match execStmt fuel st fr s with
      | (st', fr', .error err) => (st', fr', .error err)
      | (st', fr', .ok (.returned v)) => (st', fr', .ok (.returned v))
      | (st', fr', .ok .normal) => execStmts fuel st' fr' rest

end

/-! ### The bounded invoker (tools.py, safe_execute_code_tool) -/

/-- A tool input after ast.parse: either a parse failure or a tree. -/
inductive ParseResult
  | syntaxError
  | parsed (tree : List PyStmt)

/-- The state at the start of the try-block: shallow copy of SAFE_NAMESPACE
(fresh globals list, fresh builtins list, shared module objects ms). -/
def initState (ms : Dict (Dict Val)) : PyState :=
  { modules := ms, globals := SAFE_NAMESPACE_globals,
    builtins := SAFE_NAMESPACE_builtins }

/-- The empty local_namespace of the exec call. -/
def initFrame : Frame :=
  { locals := [], globalDecls := [] }

/-- The try-block of safe_execute_code_tool (tools.py lines 62-82), from
namespace construction on: build safe_globals as a shallow copy of
SAFE_NAMESPACE (fresh globals and builtins dictionaries, shared module
objects), execute the compiled tree with an empty local_namespace, look the
target up in local_namespace, call it.  The except-clause of the source is
applied by the wrapper below; this function exposes which exception each
failure raises.  A top-level return does not compile in the source (SyntaxError
inside the try-block), rendered here as compileError. -/
def runPipeline (fuel : Nat) (ms : Dict (Dict Val)) (tree : List PyStmt)
    (function_name : String) (args : List Val) :
    Except PyErr Val × Dict (Dict Val) :=
  match execStmts fuel (initState ms) initFrame tree with
  | (st, _, .error err) => (.error err, st.modules)
  | (st, _, .ok (.returned _)) => (.error .compileError, st.modules)
  | (st, fr, .ok .normal) =>
    match dictGet fr.locals function_name with
    | none => (.error (.targetNotFound function_name), st.modules)
    | some fv =>
      match callValue fuel st fv args with
      | (st', .error err) => (.error err, st'.modules)
      | (st', .ok v) => (.ok v, st'.modules)

/-- safe_execute_code_tool from tools.py: validation, the import gate, then
the try-block, with every failure of any stage mapped to the single outcome
None.  The returned module store is the lasting effect of the invocation on
the process (the shared module objects). -/
def safe_execute_code_tool (fuel : Nat) (ms : Dict (Dict Val))
    (input : ParseResult) (function_name : String) (args : List Val) :
    Option Val × Dict (Dict Val) :=
  match input with
  | .syntaxError => (none, ms)
  | .parsed tree =>
    match validate_code_security tree with
    | .error _ => (none, ms)
    | .ok _ =>
      if stmtsHaveDisallowedImport tree then (none, ms)
      else
        match runPipeline fuel ms tree function_name args with
        | (.error _, ms') => (none, ms')
        | (.ok v, ms') => (some v, ms')

/-! ### Syntactic predicates used to state the claims

These describe the candidate source itself, independently of the validator:
presence of a direct self-call (a call whose callee is a bare name equal to
the innermost enclosing named function, lambdas not changing that function,
exactly the criterion of visit_Call), the maximal nesting depth of function
and lambda definitions, and presence of an attribute access with a denied
name. -/

/-- The callee of a call expression is a bare name equal to the innermost
enclosing named function. -/
def callSelfFlag (cur : Option String) : PyExpr → Bool
  | .name id => cur == some id
  | _ => false

mutual

def stmtSelfCall (cur : Option String) : PyStmt → Bool
  | .functionDef fname _ body => stmtsSelfCall (some fname) body
  | .asyncFunctionDef fname _ body => stmtsSelfCall (some fname) body
  | .ret none => false
  | .ret (some e) => exprSelfCall cur e
  | .exprStmt e => exprSelfCall cur e
  | .assignName _ e => exprSelfCall cur e
  | .assignAttr obj _ e => exprSelfCall cur obj || exprSelfCall cur e
  | .globalStmt _ => false
  | .whileStmt test body => exprSelfCall cur test || stmtsSelfCall cur body
  | .importStmt _ => false
  | .importFrom _ _ => false
  | .passStmt => false

def stmtsSelfCall (cur : Option String) : List PyStmt → Bool
  | [] => false
  | s :: rest => stmtSelfCall cur s || stmtsSelfCall cur rest

def exprSelfCall (cur : Option String) : PyExpr → Bool
  | .name _ => false
  | .intC _ => false
  | .floatC _ => false
  | .boolC _ => false
  | .strC _ => false
  | .attr value _ => exprSelfCall cur value
  | .call func args =>
    callSelfFlag cur func || exprSelfCall cur func || exprsSelfCall cur args
  | .lam _ body => exprSelfCall cur body
  | .binop _ lhs rhs => exprSelfCall cur lhs || exprSelfCall cur rhs

def exprsSelfCall (cur : Option String) : List PyExpr → Bool
  | [] => false
  | e :: rest => exprSelfCall cur e || exprsSelfCall cur rest

end

/-- The source contains, inside the body of a named function, a call whose
callee is a bare name equal to the innermost enclosing named function. -/
def hasDirectSelfCall (tree : List PyStmt) : Bool :=
  stmtsSelfCall none tree

mutual

def stmtNest : PyStmt → Nat
  | .functionDef _ _ body => 1 + stmtsNest body
  | .asyncFunctionDef _ _ body => 1 + stmtsNest body
  | .ret none => 0
  | .ret (some e) => exprNest e
  | .exprStmt e => exprNest e
  | .assignName _ e => exprNest e
  | .assignAttr obj _ e => max (exprNest obj) (exprNest e)
  | .globalStmt _ => 0
  | .whileStmt test body => max (exprNest test) (stmtsNest body)
  | .importStmt _ => 0
  | .importFrom _ _ => 0
  | .passStmt => 0

def stmtsNest : List PyStmt → Nat
  | [] => 0
  | s :: rest => max (stmtNest s) (stmtsNest rest)

def exprNest : PyExpr → Nat
  | .name _ => 0
  | .intC _ => 0
  | .floatC _ => 0
  | .boolC _ => 0
  | .strC _ => 0
  | .attr value _ => exprNest value
  | .call func args => max (exprNest func) (exprsNest args)
  | .lam _ body => 1 + exprNest body
  | .binop _ lhs rhs => max (exprNest lhs) (exprNest rhs)

def exprsNest : List PyExpr → Nat
  | [] => 0
  | e :: rest => max (exprNest e) (exprsNest rest)

end

/-- The combined nesting depth of named function definitions, async function
definitions and lambdas in the source. -/
def treeMaxNesting (tree : List PyStmt) : Nat :=
  stmtsNest tree

mutual

def stmtDanger : PyStmt → Bool
  | .functionDef _ _ body => stmtsDanger body
  | .asyncFunctionDef _ _ body => stmtsDanger body
  | .ret none => false
  | .ret (some e) => exprDanger e
  | .exprStmt e => exprDanger e
  | .assignName _ e => exprDanger e
  | .assignAttr obj attrName e =>
    DANGEROUS_ATTRIBUTES.contains attrName || exprDanger obj || exprDanger e
  | .globalStmt _ => false
  | .whileStmt test body => exprDanger test || stmtsDanger body
  | .importStmt _ => false
  | .importFrom _ _ => false
  | .passStmt => false

def stmtsDanger : List PyStmt → Bool
  | [] => false
  | s :: rest => stmtDanger s || stmtsDanger rest

def exprDanger : PyExpr → Bool
  | .name _ => false
  | .intC _ => false
  | .floatC _ => false
  | .boolC _ => false
  | .strC _ => false
  | .attr value attrName => DANGEROUS_ATTRIBUTES.contains attrName || exprDanger value
  | .call func args => exprDanger func || exprsDanger args
  | .lam _ body => exprDanger body
  | .binop _ lhs rhs => exprDanger lhs || exprDanger rhs

def exprsDanger : List PyExpr → Bool
  | [] => false
  | e :: rest => exprDanger e || exprsDanger rest

end

/-- The syntax tree contains an attribute access (read or write target) whose
attribute name is one of the denied attributes. -/
def treeHasDangerousAttribute (tree : List PyStmt) : Bool :=
  stmtsDanger tree

/-! ### The candidate programs appearing in the claims -/

/-- def add(a, b): return a + b -/
def addProg : List PyStmt :=
  [.functionDef "add" ["a", "b"] [.ret (some (.binop .add (.name "a") (.name "b")))]]

/-- import math, then def calculate_sqrt(x): return sqrt(x) — the body as
written in the claim, with a bare sqrt. -/
def sqrtBareProg : List PyStmt :=
  [.importStmt "math",
   .functionDef "calculate_sqrt" ["x"]
     [.ret (some (.call (.name "sqrt") [.name "x"]))]]

/-- from math import sqrt, then def calculate_sqrt(x): return sqrt(x) — the
other reading of "imports the math module": the from-import binds sqrt in
local_namespace, which the function body cannot see. -/
def sqrtFromProg : List PyStmt :=
  [.importFrom "math" ["sqrt"],
   .functionDef "calculate_sqrt" ["x"]
     [.ret (some (.call (.name "sqrt") [.name "x"]))]]

/-- import math, then def calculate_sqrt(x): return math.sqrt(x) — the body
as written in the repository's own test test_execution_with_imports. -/
def sqrtQualProg : List PyStmt :=
  [.importStmt "math",
   .functionDef "calculate_sqrt" ["x"]
     [.ret (some (.call (.attr (.name "math") "sqrt") [.name "x"]))]]

/-- def leak(): math.leak = 42; return 0 — mutates an attribute of the
pre-seeded math module object. -/
def leakProg : List PyStmt :=
  [.functionDef "leak" []
     [.assignAttr (.name "math") "leak" (.intC 42), .ret (some (.intC 0))]]

/-- def read_leak(): return math.leak — reads the attribute back in a later,
independent invocation. -/
def readLeakProg : List PyStmt :=
  [.functionDef "read_leak" [] [.ret (some (.attr (.name "math") "leak"))]]

/-- def set_global(): global v; v = 42; return v, for a variable name v. -/
def setGlobalProg (v : String) : List PyStmt :=
  [.functionDef "set_global" []
     [.globalStmt v, .assignName v (.intC 42), .ret (some (.name v))]]

/-- def get_global(): return v, for a variable name v. -/
def getGlobalProg (v : String) : List PyStmt :=
  [.functionDef "get_global" [] [.ret (some (.name v))]]

/-- Two top-level functions, the second of which calls the first by name:
def gn(gps): gbody, then def fn(fps): return gn(cargs). -/
def twoFunProg (gn : String) (gps : List String) (gbody : List PyStmt)
    (fn : String) (fps : List String) (cargs : List PyExpr) : List PyStmt :=
  [.functionDef gn gps gbody,
   .functionDef fn fps [.ret (some (.call (.name gn) cargs))]]

/-- def len(a, b): return a, then def f(): return len(1, 2) — the sibling
function's name collides with a pre-seeded builtin. -/
def lenShadowProg : List PyStmt :=
  twoFunProg "len" ["a", "b"] [.ret (some (.name "a"))] "f" [] [.intC 1, .intC 2]

/-- def g(): return 1, then def f(): return g(). -/
def fgProg : List PyStmt :=
  twoFunProg "g" [] [.ret (some (.intC 1))] "f" [] []

/-- def func_a(): return func_b(), then def func_b(): return func_a() —
mutual recursion across two distinct names. -/
def mutualRecProg : List PyStmt :=
  [.functionDef "func_a" [] [.ret (some (.call (.name "func_b") []))],
   .functionDef "func_b" [] [.ret (some (.call (.name "func_a") []))]]

/-- def factorial(n): return n * factorial(n - 1) — direct self-recursion. -/
def selfRecProg : List PyStmt :=
  [.functionDef "factorial" ["n"]
     [.ret (some (.binop .mul (.name "n")
        (.call (.name "factorial") [.binop .sub (.name "n") (.intC 1)])))]]

/-- while True: pass, followed by a directly self-recursive function: the
while loop is reached first by the traversal. -/
def recPreemptProg : List PyStmt :=
  [.whileStmt (.boolC true) [.passStmt],
   .functionDef "f" [] [.ret (some (.call (.name "f") []))]]

/-- Two nested levels of named functions (the repository test
test_nested_function_within_limit). -/
def twoLevelProg : List PyStmt :=
  [.functionDef "outer" ["x"]
     [.functionDef "inner" ["y"] [.ret (some (.name "y"))],
      .ret (some (.call (.name "inner") [.name "x"]))]]

/-- Three nested levels mixing named functions and a lambda. -/
def threeLevelMixProg : List PyStmt :=
  [.functionDef "a" []
     [.functionDef "b" [] [.ret (some (.lam ["x"] (.name "x")))],
      .passStmt]]

/-- while True: pass, followed by three nested definition levels: the while
loop is reached first by the traversal. -/
def nestPreemptProg : List PyStmt :=
  [.whileStmt (.boolC true) [.passStmt],
   .functionDef "a" []
     [.functionDef "b" [] [.ret (some (.lam ["x"] (.name "x")))],
      .passStmt]]

/-- while a.__class__: pass — contains a denied attribute access, but the
While node itself is rejected before its children are visited. -/
def dangerPreemptProg : List PyStmt :=
  [.whileStmt (.attr (.name "a") "__class__") [.passStmt]]

/-- A source whose only violation is a denied attribute access. -/
def dangerProg : List PyStmt :=
  [.exprStmt (.attr (.name "x") "__class__")]

/-- import os, then a harmless function (the repository test
test_blocked_dangerous_import). -/
def importOsProg : List PyStmt :=
  [.importStmt "os",
   .functionDef "dangerous_func" [] [.ret (some (.strC "should not execute"))]]

/-- What a violation of each kind reported by the traversal guarantees about
the source: RecursionDetected only arises in presence of a direct self-call,
DangerousAttribute only in presence of a denied attribute access,
NestingDepthExceeded only when the combined nesting depth exceeds the bound.
-/
def violationProp (selfC danger : Bool) (bound : Nat) : Violation → Prop
  | .dangerousAttribute _ => danger = true
  | .whileLoopForbidden => True
  | .nestingDepthExceeded => MAX_FUNCTION_DEPTH < bound
  | .recursionDetected _ => selfC = true

/-! ### Dictionary and frame lemmas -/

theorem dictGet_dictSet_self {β : Type} (d : Dict β) (k : String) (v : β) :
    dictGet (dictSet d k v) k = some v := by
  induction d with
  | nil => simp [dictSet, dictGet]
  | cons p rest ih =>
    obtain ⟨k', v'⟩ := p
    by_cases h : k' = k
    · simp [dictSet, dictGet, h]
    · simp [dictSet, dictGet, h, ih]

theorem dictGet_nil {β : Type} (k : String) :
    dictGet ([] : Dict β) k = none := rfl

theorem dictGet_zip_eq_none {ps : List String} {vs : List Val} {k : String}
    (h : k ∉ ps) : dictGet (ps.zip vs) k = none := by
  induction ps generalizing vs with
  | nil => simp [dictGet, List.zip]
  | cons p rest ih =>
    cases vs with
    | nil => simp [dictGet]
    | cons v vs' =>
      have hpk : p ≠ k := fun hh => h (hh ▸ List.mem_cons_self _ _)
      simp only [List.zip_cons_cons, dictGet, if_neg hpk]
      exact ih (fun hm => h (List.mem_cons_of_mem _ hm))

/-! ### What a successful validation guarantees about the source

If the traversal starting at depth d under enclosing function cur finishes
without raising, the visited subtree contains no direct self-call relative to
cur, no denied attribute access, and its definitions nest at most
MAX_FUNCTION_DEPTH - d deep. -/

theorem callCheck_ok_flag (cur : Option String) (f : PyExpr)
    (h : callCheck cur f = .ok ()) : callSelfFlag cur f = false := by
  cases f with
  | name id =>
    simp only [callCheck] at h
    split at h
    · simp at h
    · simp only [callSelfFlag]
      simp only [beq_eq_false_iff_ne, ne_eq]
      assumption
  | _ => rfl

theorem callCheck_err_flag (cur : Option String) (f : PyExpr) (v : Violation)
    (h : callCheck cur f = .error v) :
    callSelfFlag cur f = true ∧ ∃ id, v = .recursionDetected id := by
  cases f with
  | name id =>
    simp only [callCheck] at h
    split at h
    · refine ⟨by simp only [callSelfFlag]; simp [*], id, ?_⟩
      simpa using h.symm
    · simp at h
  | _ => simp [callCheck] at h

mutual

theorem visitStmt_sound : ∀ (d : Nat) (cur : Option String) (s : PyStmt),
    visitStmt d cur s = .ok () →
    stmtSelfCall cur s = false ∧ stmtDanger s = false ∧
      stmtNest s ≤ MAX_FUNCTION_DEPTH - d
  | d, cur, .functionDef fname ps body => fun h => by
    simp only [visitStmt] at h
    split at h
    · simp at h
    · obtain ⟨h1, h2, h3⟩ := visitStmts_sound (d + 1) (some fname) body h
      refine ⟨h1, h2, ?_⟩
      simp only [stmtNest, MAX_FUNCTION_DEPTH] at *
      omega
  | d, cur, .asyncFunctionDef fname ps body => fun h => by
    simp only [visitStmt] at h
    split at h
    · simp at h
    · obtain ⟨h1, h2, h3⟩ := visitStmts_sound (d + 1) (some fname) body h
      refine ⟨h1, h2, ?_⟩
      simp only [stmtNest, MAX_FUNCTION_DEPTH] at *
      omega
  | d, cur, .ret none => fun _ => ⟨rfl, rfl, by simp [stmtNest]⟩
  | d, cur, .ret (some e) => fun h => by
    obtain ⟨h1, h2, h3⟩ := visitExpr_sound d cur e h
    exact ⟨h1, h2, h3⟩
  | d, cur, .exprStmt e => fun h => by
    obtain ⟨h1, h2, h3⟩ := visitExpr_sound d cur e h
    exact ⟨h1, h2, h3⟩
  | d, cur, .assignName t e => fun h => by
    obtain ⟨h1, h2, h3⟩ := visitExpr_sound d cur e h
    exact ⟨h1, h2, h3⟩
  | d, cur, .assignAttr obj attrName e => fun h => by
    simp only [visitStmt] at h
    split at h
    · simp at h
    · rename_i hattr
      cases hobj : visitExpr d cur obj with
      | error v => rw [hobj] at h; simp at h
      | ok u =>
        cases u
        rw [hobj] at h
        obtain ⟨o1, o2, o3⟩ := visitExpr_sound d cur obj hobj
        obtain ⟨e1, e2, e3⟩ := visitExpr_sound d cur e h
        refine ⟨?_, ?_, ?_⟩
        · simp only [stmtSelfCall, o1, e1, Bool.or_false]
        · simp only [stmtDanger, o2, e2, Bool.or_false,
            Bool.eq_false_iff] at hattr ⊢
          simpa using hattr
        · simp only [stmtNest]
          exact max_le o3 e3
  | d, cur, .globalStmt g => fun _ => ⟨rfl, rfl, by simp [stmtNest]⟩
  | d, cur, .whileStmt t body => fun h => by simp [visitStmt] at h
  | d, cur, .importStmt m => fun _ => ⟨rfl, rfl, by simp [stmtNest]⟩
  | d, cur, .importFrom m ns => fun _ => ⟨rfl, rfl, by simp [stmtNest]⟩
  | d, cur, .passStmt => fun _ => ⟨rfl, rfl, by simp [stmtNest]⟩

theorem visitStmts_sound : ∀ (d : Nat) (cur : Option String) (ss : List PyStmt),
    visitStmts d cur ss = .ok () →
    stmtsSelfCall cur ss = false ∧ stmtsDanger ss = false ∧
      stmtsNest ss ≤ MAX_FUNCTION_DEPTH - d
  | d, cur, [] => fun _ => ⟨rfl, rfl, by simp [stmtsNest]⟩
  | d, cur, s :: rest => fun h => by
    simp only [visitStmts] at h
    cases hs : visitStmt d cur s with
    | error v => rw [hs] at h; simp at h
    | ok u =>
      cases u
      rw [hs] at h
      obtain ⟨a1, a2, a3⟩ := visitStmt_sound d cur s hs
      obtain ⟨b1, b2, b3⟩ := visitStmts_sound d cur rest h
      refine ⟨?_, ?_, ?_⟩
      · simp only [stmtsSelfCall, a1, b1, Bool.or_false]
      · simp only [stmtsDanger, a2, b2, Bool.or_false]
      · simp only [stmtsNest]
        exact max_le a3 b3

theorem visitExpr_sound : ∀ (d : Nat) (cur : Option String) (e : PyExpr),
    visitExpr d cur e = .ok () →
    exprSelfCall cur e = false ∧ exprDanger e = false ∧
      exprNest e ≤ MAX_FUNCTION_DEPTH - d
  | d, cur, .name _ => fun _ => ⟨rfl, rfl, by simp [exprNest]⟩
  | d, cur, .intC _ => fun _ => ⟨rfl, rfl, by simp [exprNest]⟩
  | d, cur, .floatC _ => fun _ => ⟨rfl, rfl, by simp [exprNest]⟩
  | d, cur, .boolC _ => fun _ => ⟨rfl, rfl, by simp [exprNest]⟩
  | d, cur, .strC _ => fun _ => ⟨rfl, rfl, by simp [exprNest]⟩
  | d, cur, .attr value attrName => fun h => by
    simp only [visitExpr] at h
    split at h
    · simp at h
    · rename_i hattr
      obtain ⟨h1, h2, h3⟩ := visitExpr_sound d cur value h
      refine ⟨h1, ?_, h3⟩
      simp only [exprDanger, h2, Bool.or_false, Bool.eq_false_iff] at hattr ⊢
      simpa using hattr
  | d, cur, .call func args => fun h => by
    simp only [visitExpr] at h
    cases hc : callCheck cur func with
    | error v => rw [hc] at h; simp at h
    | ok u =>
      cases u
      rw [hc] at h
      cases hf : visitExpr d cur func with
      | error v => rw [hf] at h; simp at h
      | ok u2 =>
        cases u2
        rw [hf] at h
        obtain ⟨f1, f2, f3⟩ := visitExpr_sound d cur func hf
        obtain ⟨a1, a2, a3⟩ := visitExprs_sound d cur args h
        refine ⟨?_, ?_, ?_⟩
        · simp only [exprSelfCall, callCheck_ok_flag cur func hc, f1, a1,
            Bool.or_false]
        · simp only [exprDanger, f2, a2, Bool.or_false]
        · simp only [exprNest]
          exact max_le f3 a3
  | d, cur, .lam ps body => fun h => by
    simp only [visitExpr] at h
    split at h
    · simp at h
    · obtain ⟨h1, h2, h3⟩ := visitExpr_sound (d + 1) cur body h
      refine ⟨h1, h2, ?_⟩
      simp only [exprNest, MAX_FUNCTION_DEPTH] at *
      omega
  | d, cur, .binop op lhs rhs => fun h => by
    simp only [visitExpr] at h
    cases hl : visitExpr d cur lhs with
    | error v => rw [hl] at h; simp at h
    | ok u =>
      cases u
      rw [hl] at h
      obtain ⟨l1, l2, l3⟩ := visitExpr_sound d cur lhs hl
      obtain ⟨r1, r2, r3⟩ := visitExpr_sound d cur rhs h
      refine ⟨?_, ?_, ?_⟩
      · simp only [exprSelfCall, l1, r1, Bool.or_false]
      · simp only [exprDanger, l2, r2, Bool.or_false]
      · simp only [exprNest]
        exact max_le l3 r3

theorem visitExprs_sound : ∀ (d : Nat) (cur : Option String) (es : List PyExpr),
    visitExprs d cur es = .ok () →
    exprsSelfCall cur es = false ∧ exprsDanger es = false ∧
      exprsNest es ≤ MAX_FUNCTION_DEPTH - d
  | d, cur, [] => fun _ => ⟨rfl, rfl, by simp [exprsNest]⟩
  | d, cur, e :: rest => fun h => by
    simp only [visitExprs] at h
    cases he : visitExpr d cur e with
    | error v => rw [he] at h; simp at h
    | ok u =>
      cases u
      rw [he] at h
      obtain ⟨a1, a2, a3⟩ := visitExpr_sound d cur e he
      obtain ⟨b1, b2, b3⟩ := visitExprs_sound d cur rest h
      refine ⟨?_, ?_, ?_⟩
      · simp only [exprsSelfCall, a1, b1, Bool.or_false]
      · simp only [exprsDanger, a2, b2, Bool.or_false]
      · simp only [exprsNest]
        exact max_le a3 b3

end

/-! ### What each raised violation kind guarantees about the source -/

theorem violationProp_mono {s1 s2 d1 d2 : Bool} {b1 b2 : Nat}
    (hs : s1 = true → s2 = true) (hd : d1 = true → d2 = true) (hb : b1 ≤ b2) :
    ∀ v, violationProp s1 d1 b1 v → violationProp s2 d2 b2 v := by
  intro v hv
  cases v with
  | dangerousAttribute a => exact hd hv
  | whileLoopForbidden => trivial
  | nestingDepthExceeded =>
    simp only [violationProp] at hv ⊢
    omega
  | recursionDetected f => exact hs hv

mutual

theorem visitStmt_err : ∀ (d : Nat) (cur : Option String) (s : PyStmt)
    (v : Violation), visitStmt d cur s = .error v →
    violationProp (stmtSelfCall cur s) (stmtDanger s) (d + stmtNest s) v
  | d, cur, .functionDef fname ps body, v => fun h => by
    simp only [visitStmt] at h
    split at h
    · rename_i hcond
      cases h
      simp only [violationProp, stmtNest, MAX_FUNCTION_DEPTH] at hcond ⊢
      omega
    · have ih := visitStmts_err (d + 1) (some fname) body v h
      refine violationProp_mono (fun hx => hx) (fun hx => hx) ?_ v ih
      simp only [stmtNest]
      omega
  | d, cur, .asyncFunctionDef fname ps body, v => fun h => by
    simp only [visitStmt] at h
    split at h
    · rename_i hcond
      cases h
      simp only [violationProp, stmtNest, MAX_FUNCTION_DEPTH] at hcond ⊢
      omega
    · have ih := visitStmts_err (d + 1) (some fname) body v h
      refine violationProp_mono (fun hx => hx) (fun hx => hx) ?_ v ih
      simp only [stmtNest]
      omega
  | d, cur, .ret none, v => fun h => by simp [visitStmt] at h
  | d, cur, .ret (some e), v => fun h => visitExpr_err d cur e v h
  | d, cur, .exprStmt e, v => fun h => visitExpr_err d cur e v h
  | d, cur, .assignName t e, v => fun h => visitExpr_err d cur e v h
  | d, cur, .assignAttr obj attrName e, v => fun h => by
    simp only [visitStmt] at h
    split at h
    · rename_i hattr
      cases h
      simp only [violationProp, stmtDanger, hattr, Bool.true_or]
    · cases hobj : visitExpr d cur obj with
      | error w =>
        rw [hobj] at h
        cases h
        have ih := visitExpr_err d cur obj v hobj
        refine violationProp_mono ?_ ?_ ?_ v ih
        · intro hx; simp only [stmtSelfCall, hx, Bool.true_or, Bool.or_true]
        · intro hx; simp only [stmtDanger, hx, Bool.true_or, Bool.or_true]
        · simp only [stmtNest]
          exact Nat.add_le_add_left (le_max_left _ _) d
      | ok u =>
        cases u
        rw [hobj] at h
        have ih := visitExpr_err d cur e v h
        refine violationProp_mono ?_ ?_ ?_ v ih
        · intro hx; simp only [stmtSelfCall, hx, Bool.or_true]
        · intro hx; simp only [stmtDanger, hx, Bool.or_true]
        · simp only [stmtNest]
          exact Nat.add_le_add_left (le_max_right _ _) d
  | d, cur, .globalStmt g, v => fun h => by simp [visitStmt] at h
  | d, cur, .whileStmt t body, v => fun h => by
    simp only [visitStmt] at h
    cases h
    trivial
  | d, cur, .importStmt m, v => fun h => by simp [visitStmt] at h
  | d, cur, .importFrom m ns, v => fun h => by simp [visitStmt] at h
  | d, cur, .passStmt, v => fun h => by simp [visitStmt] at h

theorem visitStmts_err : ∀ (d : Nat) (cur : Option String) (ss : List PyStmt)
    (v : Violation), visitStmts d cur ss = .error v →
    violationProp (stmtsSelfCall cur ss) (stmtsDanger ss) (d + stmtsNest ss) v
  | d, cur, [], v => fun h => by simp [visitStmts] at h
  | d, cur, s :: rest, v => fun h => by
    simp only [visitStmts] at h
    cases hs : visitStmt d cur s with
    | error w =>
      rw [hs] at h
      cases h
      have ih := visitStmt_err d cur s v hs
      refine violationProp_mono ?_ ?_ ?_ v ih
      · intro hx; simp only [stmtsSelfCall, hx, Bool.true_or]
      · intro hx; simp only [stmtsDanger, hx, Bool.true_or]
      · simp only [stmtsNest]
        exact Nat.add_le_add_left (le_max_left _ _) d
    | ok u =>
      cases u
      rw [hs] at h
      have ih := visitStmts_err d cur rest v h
      refine violationProp_mono ?_ ?_ ?_ v ih
      · intro hx; simp only [stmtsSelfCall, hx, Bool.or_true]
      · intro hx; simp only [stmtsDanger, hx, Bool.or_true]
      · simp only [stmtsNest]
        exact Nat.add_le_add_left (le_max_right _ _) d

theorem visitExpr_err : ∀ (d : Nat) (cur : Option String) (e : PyExpr)
    (v : Violation), visitExpr d cur e = .error v →
    violationProp (exprSelfCall cur e) (exprDanger e) (d + exprNest e) v
  | d, cur, .name _, v => fun h => by simp [visitExpr] at h
  | d, cur, .intC _, v => fun h => by simp [visitExpr] at h
  | d, cur, .floatC _, v => fun h => by simp [visitExpr] at h
  | d, cur, .boolC _, v => fun h => by simp [visitExpr] at h
  | d, cur, .strC _, v => fun h => by simp [visitExpr] at h
  | d, cur, .attr value attrName, v => fun h => by
    simp only [visitExpr] at h
    split at h
    · rename_i hattr
      cases h
      simp only [violationProp, exprDanger, hattr, Bool.true_or]
    · have ih := visitExpr_err d cur value v h
      refine violationProp_mono ?_ ?_ ?_ v ih
      · intro hx; simp only [exprSelfCall, hx]
      · intro hx; simp only [exprDanger, hx, Bool.or_true]
      · simp only [exprNest]
        exact le_refl _
  | d, cur, .call func args, v => fun h => by
    simp only [visitExpr] at h
    cases hc : callCheck cur func with
    | error w =>
      rw [hc] at h
      cases h
      obtain ⟨hflag, id, hid⟩ := callCheck_err_flag cur func v hc
      subst hid
      simp only [violationProp, exprSelfCall, hflag, Bool.true_or]
    | ok u =>
      cases u
      rw [hc] at h
      cases hf : visitExpr d cur func with
      | error w =>
        rw [hf] at h
        cases h
        have ih := visitExpr_err d cur func v hf
        refine violationProp_mono ?_ ?_ ?_ v ih
        · intro hx; simp only [exprSelfCall, hx, Bool.true_or, Bool.or_true]
        · intro hx; simp only [exprDanger, hx, Bool.true_or]
        · simp only [exprNest]
          exact Nat.add_le_add_left (le_max_left _ _) d
      | ok u2 =>
        cases u2
        rw [hf] at h
        have ih := visitExprs_err d cur args v h
        refine violationProp_mono ?_ ?_ ?_ v ih
        · intro hx; simp only [exprSelfCall, hx, Bool.or_true]
        · intro hx; simp only [exprDanger, hx, Bool.or_true]
        · simp only [exprNest]
          exact Nat.add_le_add_left (le_max_right _ _) d
  | d, cur, .lam ps body, v => fun h => by
    simp only [visitExpr] at h
    split at h
    · rename_i hcond
      cases h
      simp only [violationProp, exprNest, MAX_FUNCTION_DEPTH] at hcond ⊢
      omega
    · have ih := visitExpr_err (d + 1) cur body v h
      refine violationProp_mono (fun hx => hx) (fun hx => hx) ?_ v ih
      simp only [exprNest]
      omega
  | d, cur, .binop op lhs rhs, v => fun h => by
    simp only [visitExpr] at h
    cases hl : visitExpr d cur lhs with
    | error w =>
      rw [hl] at h
      cases h
      have ih := visitExpr_err d cur lhs v hl
      refine violationProp_mono ?_ ?_ ?_ v ih
      · intro hx; simp only [exprSelfCall, hx, Bool.true_or]
      · intro hx; simp only [exprDanger, hx, Bool.true_or]
      · simp only [exprNest]
        exact Nat.add_le_add_left (le_max_left _ _) d
    | ok u =>
      cases u
      rw [hl] at h
      have ih := visitExpr_err d cur rhs v h
      refine violationProp_mono ?_ ?_ ?_ v ih
      · intro hx; simp only [exprSelfCall, hx, Bool.or_true]
      · intro hx; simp only [exprDanger, hx, Bool.or_true]
      · simp only [exprNest]
        exact Nat.add_le_add_left (le_max_right _ _) d

theorem visitExprs_err : ∀ (d : Nat) (cur : Option String) (es : List PyExpr)
    (v : Violation), visitExprs d cur es = .error v →
    violationProp (exprsSelfCall cur es) (exprsDanger es) (d + exprsNest es) v
  | d, cur, [], v => fun h => by simp [visitExprs] at h
  | d, cur, e :: rest, v => fun h => by
    simp only [visitExprs] at h
    cases he : visitExpr d cur e with
    | error w =>
      rw [he] at h
      cases h
      have ih := visitExpr_err d cur e v he
      refine violationProp_mono ?_ ?_ ?_ v ih
      · intro hx; simp only [exprsSelfCall, hx, Bool.true_or]
      · intro hx; simp only [exprsDanger, hx, Bool.true_or]
      · simp only [exprsNest]
        exact Nat.add_le_add_left (le_max_left _ _) d
    | ok u =>
      cases u
      rw [he] at h
      have ih := visitExprs_err d cur rest v h
      refine violationProp_mono ?_ ?_ ?_ v ih
      · intro hx; simp only [exprsSelfCall, hx, Bool.or_true]
      · intro hx; simp only [exprsDanger, hx, Bool.or_true]
      · simp only [exprsNest]
        exact Nat.add_le_add_left (le_max_right _ _) d

end

/-! ### Claims about the validator -/

/-- C6, amended: a call whose callee is a bare name equal to the innermost
enclosing named function makes validation fail (with RecursionDetected when no
construct earlier in the traversal already violates another rule), and
RecursionDetected is reported only for sources containing such a call; in
particular the purely mutual recursion func_a/func_b is accepted outright,
while the directly self-recursive factorial is rejected as RecursionDetected.
-/
theorem C6_direct_recursion_rule :
    (∀ tree, hasDirectSelfCall tree = true →
      ∃ v, validate_code_security tree = .error v) ∧
    (∀ tree fname,
      validate_code_security tree = .error (.recursionDetected fname) →
      hasDirectSelfCall tree = true) ∧
    validate_code_security mutualRecProg = .ok () ∧
    validate_code_security selfRecProg = .error (.recursionDetected "factorial") := by
  refine ⟨?_, ?_, rfl, rfl⟩
  · intro tree h
    cases hv : validate_code_security tree with
    | ok u =>
      cases u
      have hfalse := (visitStmts_sound 0 none tree hv).1
      simp only [hasDirectSelfCall] at h
      rw [hfalse] at h
      simp at h
    | error v => exact ⟨v, rfl⟩
  · intro tree fname h
    exact visitStmts_err 0 none tree _ h

/-- Witness for C6: the directly self-recursive factorial source is rejected,
and its tree satisfies the direct-self-call predicate. -/
theorem C6_direct_recursion_rule_witness :
    (∃ v, validate_code_security selfRecProg = .error v) ∧
    hasDirectSelfCall selfRecProg = true :=
  ⟨C6_direct_recursion_rule.1 selfRecProg rfl,
   C6_direct_recursion_rule.2.1 selfRecProg "factorial" rfl⟩

/-- C6, counterexample to the claim as stated: this source contains a direct
self-call, yet validation raises WhileLoopForbidden (the While node is reached
first by the depth-first traversal), not RecursionDetected. -/
theorem C6_counterexample :
    hasDirectSelfCall recPreemptProg = true ∧
    validate_code_security recPreemptProg = .error .whileLoopForbidden :=
  ⟨rfl, rfl⟩

/-- C7, amended: NestingDepthExceeded is reported only when the combined
nesting depth of named function definitions, async function definitions and
lambdas exceeds 2; every source whose nesting depth exceeds 2 fails validation
(with NestingDepthExceeded when nothing earlier in the traversal violates
another rule); a plain two-level source is accepted and a plain three-level
source mixing named functions and a lambda is rejected as
NestingDepthExceeded. -/
theorem C7_nesting_depth_rule :
    (∀ tree, validate_code_security tree = .error .nestingDepthExceeded →
      MAX_FUNCTION_DEPTH < treeMaxNesting tree) ∧
    (∀ tree, MAX_FUNCTION_DEPTH < treeMaxNesting tree →
      ∃ v, validate_code_security tree = .error v) ∧
    validate_code_security twoLevelProg = .ok () ∧
    validate_code_security threeLevelMixProg = .error .nestingDepthExceeded := by
  refine ⟨?_, ?_, rfl, rfl⟩
  · intro tree h
    have hp := visitStmts_err 0 none tree _ h
    simp only [violationProp, treeMaxNesting] at hp ⊢
    omega
  · intro tree h
    cases hv : validate_code_security tree with
    | ok u =>
      cases u
      have h3 := (visitStmts_sound 0 none tree hv).2.2
      exfalso
      simp only [treeMaxNesting] at h
      omega
    | error v => exact ⟨v, rfl⟩

/-- Witness for C7: the three-level source exceeds the depth bound and is
rejected. -/
theorem C7_nesting_depth_rule_witness :
    MAX_FUNCTION_DEPTH < treeMaxNesting threeLevelMixProg ∧
    (∃ v, validate_code_security threeLevelMixProg = .error v) :=
  ⟨C7_nesting_depth_rule.1 threeLevelMixProg rfl,
   C7_nesting_depth_rule.2.1 threeLevelMixProg (by decide)⟩

/-- C7, counterexample to the claim as stated: this source nests definitions
three deep, yet validation raises WhileLoopForbidden (the While node is
reached first), not NestingDepthExceeded, so NestingDepthExceeded is not
raised "exactly when" the depth exceeds 2. -/
theorem C7_counterexample :
    MAX_FUNCTION_DEPTH < treeMaxNesting nestPreemptProg ∧
    validate_code_security nestPreemptProg = .error .whileLoopForbidden :=
  ⟨by decide, rfl⟩

/-- C8, amended: DangerousAttribute is reported only for sources containing an
attribute access with a denied name, and every source containing such an
access fails validation (with DangerousAttribute when nothing earlier in the
traversal violates another rule); a source whose only offence is the denied
access is rejected as DangerousAttribute. -/
theorem C8_dangerous_attribute_rule :
    (∀ tree a, validate_code_security tree = .error (.dangerousAttribute a) →
      treeHasDangerousAttribute tree = true) ∧
    (∀ tree, treeHasDangerousAttribute tree = true →
      ∃ v, validate_code_security tree = .error v) ∧
    validate_code_security dangerProg = .error (.dangerousAttribute "__class__") := by
  refine ⟨?_, ?_, rfl⟩
  · intro tree a h
    exact visitStmts_err 0 none tree _ h
  · intro tree h
    cases hv : validate_code_security tree with
    | ok u =>
      cases u
      have hfalse := (visitStmts_sound 0 none tree hv).2.1
      simp only [treeHasDangerousAttribute] at h
      rw [hfalse] at h
      simp at h
    | error v => exact ⟨v, rfl⟩

/-- Witness for C8: a source reading x.__class__ satisfies the predicate and
is rejected. -/
theorem C8_dangerous_attribute_rule_witness :
    treeHasDangerousAttribute dangerProg = true ∧
    (∃ v, validate_code_security dangerProg = .error v) :=
  ⟨C8_dangerous_attribute_rule.1 dangerProg "__class__" rfl,
   C8_dangerous_attribute_rule.2.1 dangerProg rfl⟩

/-- C8, counterexample to the claim as stated: while a.__class__: pass
contains a denied attribute access, yet validation raises WhileLoopForbidden
(visit_While raises before visiting the loop's test), so the "if and only if"
with DangerousAttribute fails. -/
theorem C8_counterexample :
    treeHasDangerousAttribute dangerPreemptProg = true ∧
    validate_code_security dangerPreemptProg = .error .whileLoopForbidden :=
  ⟨rfl, rfl⟩

/-! ### Claims about concrete executions -/

/-- C10: the source def add(a, b): return a + b, target add, arguments
[5, 3] makes the tool return the value 8, leaving the module objects
untouched. -/
theorem C10_add_five_three :
    safe_execute_code_tool 64 initialModules (.parsed addProg) "add"
      [.int 5, .int 3] = (some (.int 8), initialModules) :=
  rfl

/-- C3, counterexample to the claim as stated: with the body return sqrt(x)
written in the claim, the bare name sqrt is bound by neither safe_globals nor
the builtins, so the call raises NameError and the tool returns None, not
4.0 — under both readings of "imports the math module": import math leaves
sqrt unbound everywhere, and from math import sqrt binds it only in
local_namespace, which function bodies do not see. -/
theorem C3_counterexample :
    safe_execute_code_tool 64 initialModules (.parsed sqrtBareProg)
      "calculate_sqrt" [.int 16] = (none, initialModules) ∧
    (runPipeline 64 initialModules sqrtBareProg "calculate_sqrt"
      [.int 16]).fst = .error (.nameError "sqrt") ∧
    safe_execute_code_tool 64 initialModules (.parsed sqrtFromProg)
      "calculate_sqrt" [.int 16] = (none, initialModules) ∧
    (runPipeline 64 initialModules sqrtFromProg "calculate_sqrt"
      [.int 16]).fst = .error (.nameError "sqrt") :=
  ⟨rfl, rfl, rfl, rfl⟩

/-- C3, amended: with the qualified body return math.sqrt(x) (as in the
repository's own test test_execution_with_imports), the pre-seeded math
module resolves from safe_globals and the tool returns the value 4.0. -/
theorem C3_sqrt_qualified :
    safe_execute_code_tool 64 initialModules (.parsed sqrtQualProg)
      "calculate_sqrt" [.int 16] = (some (.float 4), initialModules) :=
  rfl

/-- C1: the code violates the isolation property the claim states.  A first
invocation whose candidate sets a fresh attribute on the pre-seeded math
module succeeds (the validator only denies the fixed dangerous names), and a
second, independent invocation reads the value 42 back through its own fresh
copy of SAFE_NAMESPACE, because the shallow copy shares the module objects. -/
theorem C1_module_mutation_observable :
    (safe_execute_code_tool 64 initialModules (.parsed leakProg) "leak"
      []).fst = some (.int 0) ∧
    (safe_execute_code_tool 64
      (safe_execute_code_tool 64 initialModules (.parsed leakProg) "leak"
        []).snd
      (.parsed readLeakProg) "read_leak" []).fst = some (.int 42) :=
  ⟨rfl, rfl⟩

/-- C5: a tree containing an import of a module outside
ALLOWED_PYTHON_MODULES makes the tool return None with the module store
untouched (no namespace was used, no candidate code ran), and independently
the runtime hook safe_import raises ImportError outside the allowlist while
returning the pre-bound module object inside it. -/
theorem C5_import_gate_and_hook :
    (∀ (tree : List PyStmt) (fuel : Nat) (ms : Dict (Dict Val))
       (fname : String) (args : List Val),
      stmtsHaveDisallowedImport tree = true →
      safe_execute_code_tool fuel ms (.parsed tree) fname args = (none, ms)) ∧
    (∀ m, ALLOWED_PYTHON_MODULES.contains m = false →
      safe_import m = .error (.importError m)) ∧
    (∀ m, ALLOWED_PYTHON_MODULES.contains m = true →
      safe_import m = .ok (.module m)) := by
  refine ⟨?_, ?_, ?_⟩
  · intro tree fuel ms fname args h
    cases hv : validate_code_security tree with
    | error v => simp [safe_execute_code_tool, hv]
    | ok u => cases u; simp [safe_execute_code_tool, hv, h]
  · intro m h
    simp at h
    simp [safe_import, h]
  · intro m h
    simp only [ALLOWED_PYTHON_MODULES] at h
    simp at h
    rcases h with rfl | rfl | rfl | rfl | rfl | rfl | rfl | rfl | rfl <;> rfl

/-- Witness for C5: import os aborts the tool with the store untouched,
safe_import refuses os and returns the math module object. -/
theorem C5_import_gate_and_hook_witness :
    safe_execute_code_tool 8 initialModules (.parsed importOsProg)
      "dangerous_func" [] = (none, initialModules) ∧
    safe_import "os" = .error (.importError "os") ∧
    safe_import "math" = .ok (.module "math") :=
  ⟨C5_import_gate_and_hook.1 importOsProg 8 initialModules "dangerous_func"
     [] rfl,
   C5_import_gate_and_hook.2.1 "os" rfl,
   C5_import_gate_and_hook.2.2 "math" rfl⟩

/-- C4: every failure kind is caught inside the tool and mapped to the single
outcome None — a parse failure, a validation violation, a disallowed import,
and every exception of the try-block (definition-execution errors, the target
being absent from local_namespace, call-time exceptions, deadline expiry —
every PyErr the pipeline can produce); the external result is always either a
value or None. -/
theorem C4_failures_mapped_to_none :
    ∀ (fuel : Nat) (ms : Dict (Dict Val)) (tree : List PyStmt)
      (fname : String) (args : List Val),
    (safe_execute_code_tool fuel ms .syntaxError fname args = (none, ms)) ∧
    (∀ v, validate_code_security tree = .error v →
      safe_execute_code_tool fuel ms (.parsed tree) fname args = (none, ms)) ∧
    (stmtsHaveDisallowedImport tree = true →
      safe_execute_code_tool fuel ms (.parsed tree) fname args = (none, ms)) ∧
    (∀ (err : PyErr) (ms' : Dict (Dict Val)),
      validate_code_security tree = .ok () →
      stmtsHaveDisallowedImport tree = false →
      runPipeline fuel ms tree fname args = (.error err, ms') →
      safe_execute_code_tool fuel ms (.parsed tree) fname args = (none, ms')) ∧
    ((safe_execute_code_tool fuel ms (.parsed tree) fname args).fst = none ∨
      ∃ v,
        (safe_execute_code_tool fuel ms (.parsed tree) fname args).fst =
          some v) := by
  intro fuel ms tree fname args
  refine ⟨rfl, ?_, ?_, ?_, ?_⟩
  · intro v hv
    simp [safe_execute_code_tool, hv]
  · intro h
    cases hv : validate_code_security tree with
    | error v => simp [safe_execute_code_tool, hv]
    | ok u => cases u; simp [safe_execute_code_tool, hv, h]
  · intro err ms' hv hg hp
    simp [safe_execute_code_tool, hv, hg, hp]
  · cases h : (safe_execute_code_tool fuel ms (.parsed tree) fname args).fst
      with
    | none => exact Or.inl rfl
    | some v => exact Or.inr ⟨v, rfl⟩

/-- Witness for C4: a parse failure, a validation failure (the while loop), a
pipeline failure (the NameError of fgProg) and a deadline expiry (fuel 1 is
exhausted before the definitions finish executing) each map to None. -/
theorem C4_failures_mapped_to_none_witness :
    safe_execute_code_tool 8 initialModules .syntaxError "f" [] =
      (none, initialModules) ∧
    safe_execute_code_tool 8 initialModules (.parsed recPreemptProg) "f" [] =
      (none, initialModules) ∧
    safe_execute_code_tool 64 initialModules (.parsed fgProg) "f" [] =
      (none, initialModules) ∧
    safe_execute_code_tool 1 initialModules (.parsed addProg) "add"
      [.int 5, .int 3] = (none, initialModules) :=
  ⟨(C4_failures_mapped_to_none 8 initialModules [] "f" []).1,
   (C4_failures_mapped_to_none 8 initialModules recPreemptProg "f" []).2.1
     .whileLoopForbidden rfl,
   (C4_failures_mapped_to_none 64 initialModules fgProg "f" []).2.2.2.1
     (.nameError "g") initialModules rfl rfl rfl,
   (C4_failures_mapped_to_none 1 initialModules addProg "add"
     [.int 5, .int 3]).2.2.2.1 .timeout initialModules rfl rfl rfl⟩

/-- C9: a candidate that assigns a global variable through a global
declaration writes only the invocation's own safe_globals copy: the first run
returns the value 42 it wrote, while a second, independent invocation reading
the same name — in particular one run on the module store left by the first —
gets NameError and the tool returns None, for every variable name that is not
pre-seeded in SAFE_NAMESPACE or its builtins. -/
theorem C9_global_not_leaked :
    ∀ (F : Nat) (ms ms2 : Dict (Dict Val)) (v : String),
    dictGet SAFE_NAMESPACE_globals v = none →
    dictGet SAFE_NAMESPACE_builtins v = none →
    (safe_execute_code_tool (F + 16) ms (.parsed (setGlobalProg v))
      "set_global" []).fst = some (.int 42) ∧
    (safe_execute_code_tool (F + 16) ms2 (.parsed (getGlobalProg v))
      "get_global" []).fst = none ∧
    (runPipeline (F + 16) ms2 (getGlobalProg v) "get_global" []).fst =
      .error (.nameError v) ∧
    (safe_execute_code_tool (F + 16)
      (safe_execute_code_tool (F + 16) ms (.parsed (setGlobalProg v))
        "set_global" []).snd
      (.parsed (getGlobalProg v)) "get_global" []).fst = none := by
  intro F ms ms2 v h1 h2
  have hget : ∀ (m2 : Dict (Dict Val)),
      (safe_execute_code_tool (F + 16) m2 (.parsed (getGlobalProg v))
        "get_global" []).fst = none := by
    intro m2
    simp [safe_execute_code_tool, runPipeline, getGlobalProg, execStmts,
      execStmt, evalExpr, callValue, lookupName, storeName, initState,
      initFrame, dictGet_dictSet_self, dictGet_nil, h1, h2,
      validate_code_security, visitStmts, visitStmt, visitExpr,
      MAX_FUNCTION_DEPTH, stmtsHaveDisallowedImport, stmtHasDisallowedImport]
  have hname :
      (runPipeline (F + 16) ms2 (getGlobalProg v) "get_global" []).fst =
        .error (.nameError v) := by
    simp [runPipeline, getGlobalProg, execStmts, execStmt, evalExpr,
      callValue, lookupName, storeName, initState, initFrame,
      dictGet_dictSet_self, dictGet_nil, h1, h2]
  refine ⟨?_, hget ms2, hname, hget _⟩
  simp [safe_execute_code_tool, runPipeline, setGlobalProg, execStmts,
    execStmt, evalExpr, callValue, lookupName, storeName, initState,
    initFrame, dictGet_dictSet_self, dictGet_nil, validate_code_security,
    visitStmts, visitStmt, visitExpr, MAX_FUNCTION_DEPTH,
    stmtsHaveDisallowedImport, stmtHasDisallowedImport]

/-- C2, counterexample to the claim as stated: the claim predicts NameError
for every accepted source in which top-level function f calls sibling
top-level function g by name; but when g's name collides with a pre-seeded
builtin — here a top-level def len(a, b) next to def f(): return len(1, 2) —
the call resolves to the pre-seeded builtin len instead, and invoking f raises
TypeError (wrong argument count), not NameError, the tool still returning
None. -/
theorem C2_counterexample :
    validate_code_security lenShadowProg = .ok () ∧
    (runPipeline 64 initialModules lenShadowProg "f" []).fst =
      .error .typeError ∧
    (safe_execute_code_tool 64 initialModules (.parsed lenShadowProg) "f"
      []).fst = none := by
  refine ⟨rfl, rfl, rfl⟩

/-- C2, amended: exec with two distinct mappings binds every top-level
definition only in local_namespace — safe_globals comes out of the top-level
execution unchanged — while function bodies resolve free names against
safe_globals and the builtins only; consequently, for every source of the
form def g ...: ... ; def f(...): return g(...), where g is not among f's
parameters and is not a pre-seeded global or builtin name, invoking f raises
NameError (whenever the tool reaches it, i.e. the source validates and passes
the import gate, and the argument count matches) and the tool returns None;
the validator accepts such sources, e.g. fgProg. -/
theorem C2_two_mapping_exec :
    (∀ (F : Nat) (ms : Dict (Dict Val)) (gn : String) (gps : List String)
       (gbody : List PyStmt) (fn : String) (fps : List String)
       (cargs : List PyExpr),
      execStmts (F + 16) (initState ms) initFrame
          (twoFunProg gn gps gbody fn fps cargs) =
        (initState ms,
         { locals := dictSet (dictSet [] gn (.closure gps gbody)) fn
             (.closure fps [.ret (some (.call (.name gn) cargs))]),
           globalDecls := [] },
         .ok .normal)) ∧
    (∀ (F : Nat) (ms : Dict (Dict Val)) (gn : String) (gps : List String)
       (gbody : List PyStmt) (fn : String) (fps : List String)
       (cargs : List PyExpr) (fargs : List Val),
      gn ∉ fps →
      dictGet SAFE_NAMESPACE_globals gn = none →
      dictGet SAFE_NAMESPACE_builtins gn = none →
      fps.length = fargs.length →
      runPipeline (F + 16) ms (twoFunProg gn gps gbody fn fps cargs) fn
          fargs = (.error (.nameError gn), ms) ∧
      (validate_code_security (twoFunProg gn gps gbody fn fps cargs) =
          .ok () →
       stmtsHaveDisallowedImport (twoFunProg gn gps gbody fn fps cargs) =
          false →
       safe_execute_code_tool (F + 16) ms
          (.parsed (twoFunProg gn gps gbody fn fps cargs)) fn fargs =
          (none, ms))) ∧
    validate_code_security fgProg = .ok () := by
  refine ⟨?_, ?_, rfl⟩
  · intro F ms gn gps gbody fn fps cargs
    simp [twoFunProg, execStmts, execStmt, storeName, initState, initFrame]
  · intro F ms gn gps gbody fn fps cargs fargs hfps h1 h2 hlen
    have hpipe :
        runPipeline (F + 16) ms (twoFunProg gn gps gbody fn fps cargs) fn
          fargs = (.error (.nameError gn), ms) := by
      simp [runPipeline, twoFunProg, execStmts, execStmt, evalExpr,
        callValue, lookupName, storeName, initState, initFrame,
        dictGet_dictSet_self, dictGet_nil, dictGet_zip_eq_none hfps, h1, h2,
        hlen]
    refine ⟨hpipe, ?_⟩
    intro hv hg
    simp [safe_execute_code_tool, hv, hg, hpipe]

/-- Witness for C2: the canonical instance def g(): return 1;
def f(): return g(). -/
theorem C2_two_mapping_exec_witness :
    runPipeline (0 + 16) initialModules fgProg "f" [] =
      (.error (.nameError "g"), initialModules) ∧
    safe_execute_code_tool (0 + 16) initialModules (.parsed fgProg) "f" [] =
      (none, initialModules) :=
  ⟨(C2_two_mapping_exec.2.1 0 initialModules "g" [] [.ret (some (.intC 1))]
      "f" [] [] [] (by simp) rfl rfl rfl).1,
   (C2_two_mapping_exec.2.1 0 initialModules "g" [] [.ret (some (.intC 1))]
      "f" [] [] [] (by simp) rfl rfl rfl).2 rfl rfl⟩

/-- Witness for C9: the repository test's variable name test_var, which is
pre-seeded nowhere. -/
theorem C9_global_not_leaked_witness :
    (safe_execute_code_tool (0 + 16) initialModules
      (.parsed (setGlobalProg "test_var")) "set_global" []).fst =
      some (.int 42) ∧
    (safe_execute_code_tool (0 + 16) initialModules
      (.parsed (getGlobalProg "test_var")) "get_global" []).fst = none ∧
    (runPipeline (0 + 16) initialModules (getGlobalProg "test_var")
      "get_global" []).fst = .error (.nameError "test_var") ∧
    (safe_execute_code_tool (0 + 16)
      (safe_execute_code_tool (0 + 16) initialModules
        (.parsed (setGlobalProg "test_var")) "set_global" []).snd
      (.parsed (getGlobalProg "test_var")) "get_global" []).fst = none :=
  C9_global_not_leaked 0 initialModules initialModules "test_var" rfl rfl

end Sandbox
